import Mathlib

/-!
Shallow embedding of the PERT estimation core
(`src/app/features/pert/pert.service.ts`) and proofs of the specified
properties.  JavaScript numbers are modelled as exact rationals;
`Math.round` is modelled by its round-half-toward-positive-infinity
semantics (`Math.round n = ⌊n + 1/2⌋`).
-/

namespace Pert

/-- The closed percentile enumeration `80 | 85 | 90 | 95` of the source. -/
inductive Percentil where
  | p80
  | p85
  | p90
  | p95
deriving DecidableEq

/-- The `Unidade` union type `'horas' | 'dias'`. -/
inductive Unidade where
  | horas
  | dias
deriving DecidableEq

/-- The `PertInput` interface.  `lambda` is optional in the source
(`lambda?: number`); `calculate` substitutes the default 4. -/
structure PertInput where
  O : ℚ
  M : ℚ
  P : ℚ
  unidade : Unidade
  lambda : Option ℚ
  percentis : List Percentil

/-- The `valores` record of `PertResult`: each of the four fixed keys
holds `number | undefined`. -/
structure Valores where
  P80 : Option ℚ
  P85 : Option ℚ
  P90 : Option ℚ
  P95 : Option ℚ

/-- The `PertResult` interface. -/
structure PertResult where
  media : ℚ
  sigma : ℚ
  valores : Valores

/-- Field lookup in the `valores` record by percentile label. -/
def Valores.get (v : Valores) : Percentil → Option ℚ
  | .p80 => v.P80
  | .p85 => v.P85
  | .p90 => v.P90
  | .p95 => v.P95

/-- The constant `Z_SCORES` table of the source. -/
def Z_SCORES : Percentil → ℚ
  | .p80 => 0.8416
  | .p85 => 1.036
  | .p90 => 1.2816
  | .p95 => 1.6449

/-- `meanPert(O, M, P, lambda)` from the source:
`(O + lambda * M + P) / (lambda + 2)`. -/
def meanPert (O M P lambda : ℚ) : ℚ :=
  (O + lambda * M + P) / (lambda + 2)

/-- `sigma(O, P)` from the source: `(P - O) / 6`. -/
def sigma (O P : ℚ) : ℚ :=
  (P - O) / 6

/-- `percentile(mean, sigma, percentile)` from the source:
`mean + Z_SCORES[percentile] * sigma`. -/
def percentile (mean sigmaVal : ℚ) (p : Percentil) : ℚ :=
  mean + Z_SCORES p * sigmaVal

/-- `Math.round` on an exact rational: round half toward positive
infinity, i.e. `⌊n + 1/2⌋`. -/
def jsRound (n : ℚ) : ℚ :=
  (⌊n + 1/2⌋ : ℤ)

/-- `round2(n)` from the source: `Math.round(n * 100) / 100`. -/
def round2 (n : ℚ) : ℚ :=
  jsRound (n * 100) / 100

/-- `calculate(input)` from the source: destructures the input with
default `lambda = 4`, computes the unrounded mean and sigma, builds the
`valores` record (each entry present iff requested, rounded), and
returns the result with rounded `media` and `sigma`. -/
def calculate (input : PertInput) : PertResult :=
  let lambda := input.lambda.getD 4
  let media := meanPert input.O input.M input.P lambda
  let sigmaValue := sigma input.O input.P
  { media := round2 media
    sigma := round2 sigmaValue
    valores :=
      { P80 := if Percentil.p80 ∈ input.percentis then
          some (round2 (percentile media sigmaValue Percentil.p80)) else none
        P85 := if Percentil.p85 ∈ input.percentis then
          some (round2 (percentile media sigmaValue Percentil.p85)) else none
        P90 := if Percentil.p90 ∈ input.percentis then
          some (round2 (percentile media sigmaValue Percentil.p90)) else none
        P95 := if Percentil.p95 ∈ input.percentis then
          some (round2 (percentile media sigmaValue Percentil.p95)) else none } }

/-- `horasParaDias(horas)` from the source: `round2(horas / 8)`. -/
def horasParaDias (horas : ℚ) : ℚ :=
  round2 (horas / 8)

/-- `diasParaHoras(dias)` from the source: `round2(dias * 8)`. -/
def diasParaHoras (dias : ℚ) : ℚ :=
  round2 (dias * 8)

/-- Rounding to two decimals with the round-half-away-from-zero
tie-break, as the specification's words describe it; for comparison
with the source's `round2`. -/
def round2HalfAwayFromZero (n : ℚ) : ℚ :=
  if 0 ≤ n then ((⌊n * 100 + 1/2⌋ : ℤ) : ℚ) / 100
  else -(((⌊-n * 100 + 1/2⌋ : ℤ) : ℚ) / 100)

/-- A concrete input record used to instantiate universally quantified
theorems: O=2, M=4, P=10, lambda=4, requested percentiles = [90]. -/
def exampleInput : PertInput :=
  { O := 2
    M := 4
    P := 10
    unidade := Unidade.horas
    lambda := some 4
    percentis := [Percentil.p90] }

/-- C3: `sigma` returns exactly `(P - O) / 6` for all inputs, with no
ordering correction: when `P < O` the result is negative. -/
theorem sigma_formula (O P : ℚ) :
    sigma O P = (P - O) / 6 ∧ (P < O → sigma O P < 0) := by
  refine ⟨rfl, fun h => ?_⟩
  unfold sigma
  have hneg : P - O < 0 := by linarith
  have h6 : (0:ℚ) < 6 := by norm_num
  exact div_neg_of_neg_of_pos hneg h6

/-- Witness for C3 at O=1, P=0 (reversed ordering). -/
theorem sigma_formula_witness :
    sigma 1 0 = (0 - 1) / 6 ∧ sigma 1 0 < 0 :=
  ⟨(sigma_formula 1 0).1, (sigma_formula 1 0).2 (by norm_num)⟩

/-- C4: `percentile` returns `mean + z(p) * sigma`, where z is the fixed
`Z_SCORES` table mapping 80 to 0.8416, 85 to 1.036, 90 to 1.2816 and
95 to 1.6449. -/
theorem percentile_zscore_table (mean s : ℚ) (p : Percentil) :
    percentile mean s p = mean + Z_SCORES p * s ∧
    Z_SCORES Percentil.p80 = 0.8416 ∧
    Z_SCORES Percentil.p85 = 1.036 ∧
    Z_SCORES Percentil.p90 = 1.2816 ∧
    Z_SCORES Percentil.p95 = 1.6449 :=
  ⟨rfl, rfl, rfl, rfl, rfl⟩

/-- C2 as stated is false: lambda = -2 is a finite input, and with
O = M = P = 1 the denominator `lambda + 2` vanishes, so `meanPert`
does not return the common value 1. -/
theorem meanPert_common_value_counterexample :
    meanPert 1 1 1 (-2) ≠ 1 := by
  unfold meanPert
  norm_num

/-- C2 amended with `lambda ≠ -2`: `meanPert` returns exactly
`(O + lambda * M + P) / (lambda + 2)`; when O = M = P it returns that
common value, and at lambda = 0 it returns `(O + P) / 2`. -/
theorem meanPert_formula_amended (O M P lam : ℚ) (h : lam ≠ -2) :
    meanPert O M P lam = (O + lam * M + P) / (lam + 2) ∧
    meanPert M M M lam = M ∧
    meanPert O M P 0 = (O + P) / 2 := by
  have h2 : lam + 2 ≠ 0 := fun hc => h (by linarith)
  refine ⟨rfl, ?_, ?_⟩
  · unfold meanPert
    field_simp
    ring
  · unfold meanPert
    norm_num

/-- Witness for C2 (amended) at O=2, M=4, P=10, lambda=4. -/
theorem meanPert_formula_amended_witness :
    meanPert 2 4 10 4 = (2 + 4 * 4 + 10) / (4 + 2) ∧
    meanPert 4 4 4 4 = 4 ∧
    meanPert 2 4 10 0 = (2 + 10) / 2 :=
  meanPert_formula_amended 2 4 10 4 (by norm_num)

/-- C5: for O ≤ M ≤ P and lambda > 0 the PERT mean lies in [O, P]. -/
theorem meanPert_within_bounds (O M P lam : ℚ)
    (h1 : O ≤ M) (h2 : M ≤ P) (hl : 0 < lam) :
    O ≤ meanPert O M P lam ∧ meanPert O M P lam ≤ P := by
  have hpos : (0:ℚ) < lam + 2 := by linarith
  unfold meanPert
  constructor
  · rw [le_div_iff₀ hpos]
    nlinarith [mul_le_mul_of_nonneg_left h1 hl.le]
  · rw [div_le_iff₀ hpos]
    nlinarith [mul_le_mul_of_nonneg_left h2 hl.le]

/-- Witness for C5 at O=2, M=4, P=10, lambda=4. -/
theorem meanPert_within_bounds_witness :
    2 ≤ meanPert 2 4 10 4 ∧ meanPert 2 4 10 4 ≤ 10 :=
  meanPert_within_bounds 2 4 10 4 (by norm_num) (by norm_num) (by norm_num)

/-- C6: for sigma ≥ 0 and a fixed mean, `percentile` increases with the
z-score: P80 ≤ P85 ≤ P90 ≤ P95. -/
theorem percentile_monotone (mean s : ℚ) (hs : 0 ≤ s) :
    percentile mean s Percentil.p80 ≤ percentile mean s Percentil.p85 ∧
    percentile mean s Percentil.p85 ≤ percentile mean s Percentil.p90 ∧
    percentile mean s Percentil.p90 ≤ percentile mean s Percentil.p95 := by
  unfold percentile Z_SCORES
  refine ⟨?_, ?_, ?_⟩ <;> nlinarith

/-- Witness for C6 at mean=0, sigma=1. -/
theorem percentile_monotone_witness :
    percentile 0 1 Percentil.p80 ≤ percentile 0 1 Percentil.p85 ∧
    percentile 0 1 Percentil.p85 ≤ percentile 0 1 Percentil.p90 ∧
    percentile 0 1 Percentil.p90 ≤ percentile 0 1 Percentil.p95 :=
  percentile_monotone 0 1 (by norm_num)

/-- C7: `calculate` is a pure function of its input: two invocations on
identical inputs yield identical results. -/
theorem calculate_deterministic (x y : PertInput) (h : x = y) :
    calculate x = calculate y := by
  rw [h]

/-- Witness for C7 at the concrete example input. -/
theorem calculate_deterministic_witness :
    calculate exampleInput = calculate exampleInput :=
  calculate_deterministic exampleInput exampleInput rfl

/-- C1: in the result of `calculate`, each percentile field is present
iff the corresponding percentile was requested, a present field holds
the rounded percentile value, and `media` and `sigma` are always the
rounded mean and standard deviation. -/
theorem calculate_percentile_iff_requested (input : PertInput) :
    (((calculate input).valores.P80).isSome ↔ Percentil.p80 ∈ input.percentis) ∧
    (Percentil.p80 ∈ input.percentis →
      (calculate input).valores.P80 =
        some (round2 (percentile (meanPert input.O input.M input.P (input.lambda.getD 4))
          (sigma input.O input.P) Percentil.p80))) ∧
    (((calculate input).valores.P85).isSome ↔ Percentil.p85 ∈ input.percentis) ∧
    (Percentil.p85 ∈ input.percentis →
      (calculate input).valores.P85 =
        some (round2 (percentile (meanPert input.O input.M input.P (input.lambda.getD 4))
          (sigma input.O input.P) Percentil.p85))) ∧
    (((calculate input).valores.P90).isSome ↔ Percentil.p90 ∈ input.percentis) ∧
    (Percentil.p90 ∈ input.percentis →
      (calculate input).valores.P90 =
        some (round2 (percentile (meanPert input.O input.M input.P (input.lambda.getD 4))
          (sigma input.O input.P) Percentil.p90))) ∧
    (((calculate input).valores.P95).isSome ↔ Percentil.p95 ∈ input.percentis) ∧
    (Percentil.p95 ∈ input.percentis →
      (calculate input).valores.P95 =
        some (round2 (percentile (meanPert input.O input.M input.P (input.lambda.getD 4))
          (sigma input.O input.P) Percentil.p95))) ∧
    (calculate input).media = round2 (meanPert input.O input.M input.P (input.lambda.getD 4)) ∧
    (calculate input).sigma = round2 (sigma input.O input.P) := by
  unfold calculate
  by_cases h80 : Percentil.p80 ∈ input.percentis <;>
  by_cases h85 : Percentil.p85 ∈ input.percentis <;>
  by_cases h90 : Percentil.p90 ∈ input.percentis <;>
  by_cases h95 : Percentil.p95 ∈ input.percentis <;>
    simp [h80, h85, h90, h95]

/-- Witness for C1: at the example input, the requested P90 field holds
the rounded percentile value. -/
theorem calculate_percentile_iff_requested_witness :
    (calculate exampleInput).valores.P90 =
      some (round2 (percentile
        (meanPert exampleInput.O exampleInput.M exampleInput.P (exampleInput.lambda.getD 4))
        (sigma exampleInput.O exampleInput.P) Percentil.p90)) :=
  (calculate_percentile_iff_requested exampleInput).2.2.2.2.2.1 (by decide)

/-- `round2` moves its argument by at most 1/200. -/
theorem round2_close (x : ℚ) : |round2 x - x| ≤ 1 / 200 := by
  unfold round2 jsRound
  have h1 : ((⌊x * 100 + 1/2⌋ : ℤ) : ℚ) ≤ x * 100 + 1/2 := Int.floor_le _
  have h2 : x * 100 + 1/2 - 1 < ((⌊x * 100 + 1/2⌋ : ℤ) : ℚ) := Int.sub_one_lt_floor _
  rw [abs_le]
  constructor <;> linarith

/-- C8: converting hours to days and back returns within 0.0625 hours
of the original value. -/
theorem conversion_roundtrip (h : ℚ) :
    |diasParaHoras (horasParaDias h) - h| ≤ 0.0625 := by
  have h1 := round2_close (h / 8)
  have h2 := round2_close (round2 (h / 8) * 8)
  unfold diasParaHoras horasParaDias
  rw [abs_le] at h1 h2 ⊢
  constructor <;> · norm_num at h1 h2 ⊢; linarith

/-- C9 as stated is false: `round2` is not round-half-away-from-zero.
At the exact negative boundary -0.125 (whose double is exactly
representable, and `-0.125 * 100 = -12.5` exactly), `Math.round(-12.5)`
is -12, so `round2` returns -0.12, while half-away-from-zero gives
-0.13. -/
theorem round2_not_half_away_from_zero :
    round2 (-0.125) ≠ round2HalfAwayFromZero (-0.125) := by
  norm_num [round2, jsRound, round2HalfAwayFromZero]

/-- C9 amended: `round2` rounds to the multiple of 1/100 nearest to x
with ties broken toward positive infinity (round-half-up): the result
is the unique k/100 with x - 1/200 < k/100 ≤ x + 1/200.  A negative
.xx5 boundary therefore rounds toward the value of smaller magnitude. -/
theorem round2_half_up_characterization (x : ℚ) :
    ∃ k : ℤ, round2 x = (k : ℚ) / 100 ∧
      x - 1 / 200 < (k : ℚ) / 100 ∧ (k : ℚ) / 100 ≤ x + 1 / 200 := by
  refine ⟨⌊x * 100 + 1/2⌋, rfl, ?_, ?_⟩
  · have := Int.sub_one_lt_floor (x * 100 + 1/2)
    linarith
  · have := Int.floor_le (x * 100 + 1/2)
    linarith

/-- C10: a requested percentile in `calculate` is the rounding of the
percentile computed from the unrounded mean and sigma; at the example
input this differs from recomputing it from the rounded `media` and
`sigma` fields of the same result (6.38 vs 6.37). -/
theorem percentile_uses_unrounded_values :
    (∀ (input : PertInput) (p : Percentil), p ∈ input.percentis →
      ((calculate input).valores).get p =
        some (round2 (percentile (meanPert input.O input.M input.P (input.lambda.getD 4))
          (sigma input.O input.P) p))) ∧
    ((calculate exampleInput).valores).get Percentil.p90 ≠
      some (round2 ((calculate exampleInput).media +
        Z_SCORES Percentil.p90 * (calculate exampleInput).sigma)) := by
  constructor
  · intro input p hmem
    cases p <;>
      · unfold calculate
        simp [Valores.get, hmem]
  · norm_num [calculate, exampleInput, Valores.get, meanPert, sigma, percentile,
      Z_SCORES, round2, jsRound, Option.getD]

/-- Witness for C10: the requested P90 of the example input equals the
rounding of the percentile computed from unrounded values. -/
theorem percentile_uses_unrounded_values_witness :
    ((calculate exampleInput).valores).get Percentil.p90 =
      some (round2 (percentile
        (meanPert exampleInput.O exampleInput.M exampleInput.P (exampleInput.lambda.getD 4))
        (sigma exampleInput.O exampleInput.P) Percentil.p90)) :=
  percentile_uses_unrounded_values.1 exampleInput Percentil.p90 (by decide)

end Pert
